import Mathlib

/-!
Shallow embedding of the request-scheduling core of the
gateway-api-inference-extension repository, covering the two source files

  pkg/epp/scheduling/framework/scheduler_profile.go
  pkg/epp/scheduling/scheduler.go

Pure Go functions are translated to Lean functions.  Go `map` values are
modelled as association lists with first-key lookup and in-place update,
which realises one of the (randomised) iteration orders Go permits; no
theorem below depends on iteration order beyond membership.  float64 scores
are modelled as exact rationals: the claims under verification concern which
(pod, score) pairs contribute to an accumulator, not rounding.  Fallible Go
functions returning `error` are modelled with `Except` / product-with-option
return values, and the Go error values themselves are modelled by an
inductive `GoError` so that wrapping via `fmt.Errorf(... %w ...)` is
distinguishable from returning an error unchanged.
-/

namespace GatewaySched

/-- Model of `types.Pod` (interface); it is used by the two files only as a map key /
identity; it is modelled by its stable namespaced-name string. -/
abbrev Pod := String

/-- float64 scores, modelled as exact rationals. -/
abbrev Score := ℚ

/-- Model of `types.LLMRequest`; the scheduler reads it only opaquely (it is passed to
plugins and rendered with `%s` in one error message, modelled by `str`). -/
structure LLMRequest where
  str : String
deriving DecidableEq, Repr

/-- Model of `types.SchedulingContext` as used by these two files: the request and the
pods snapshot taken once at `Schedule` entry (logger and cancellation are
observational and omitted). -/
structure SchedulingContext where
  req : LLMRequest
  podsSnapshot : List Pod

/-- Model of `types.Result`: the pod selected by a profile cycle. -/
structure Result where
  targetPod : Pod
deriving DecidableEq, Repr

/-- Model of `types.ScoredPod`: a pod paired with its aggregate weighted score. -/
structure ScoredPod where
  pod : Pod
  score : Score
deriving DecidableEq, Repr

/-- The `Filter` plugin interface: `Name()` and `Filter(ctx, pods)`. -/
structure Filter where
  name : String
  filter : SchedulingContext → List Pod → List Pod

/-- The `Scorer` plugin interface: `Name()` and `Score(ctx, pods)`, whose Go
return type `map[types.Pod]float64` is modelled as an association list (a Go
map never holds a key twice; theorems needing that fact hypothesise nodup
keys). -/
structure Scorer where
  name : String
  score : SchedulingContext → List Pod → List (Pod × Score)

/-- Model of `framework.WeightedScorer`: a scorer together with its weight
(`Weight()` is converted to float64 at use sites). -/
structure WeightedScorer where
  scorer : Scorer
  weight : Int

/-- The `Picker` plugin interface: `Pick(ctx, scoredPods)` returns a
`*types.Result`, i.e. possibly nil, modelled as `Option Result`. -/
structure Picker where
  name : String
  pick : SchedulingContext → List ScoredPod → Option Result

/-- Model of `framework.SchedulerProfile`.  The `picker` is an interface field that is nil
until set, hence `Option`.  Post-cycle / post-response plugins are
observational (they return nothing), so only their names are carried. -/
structure SchedulerProfile where
  filters : List Filter
  scorers : List WeightedScorer
  picker : Option Picker
  postCyclePlugins : List String
  postResponsePlugins : List String

/-- The `errutil` error codes used by these files. -/
inductive ErrCode
  | Internal
deriving DecidableEq, Repr

/-- Go error values produced by the two files: a structured `errutil.Error`,
a `fmt.Errorf` carrying `%w` (which wraps the inner error under a message
put before it), or a plain `fmt.Errorf`. -/
inductive GoError
  | errutil (code : ErrCode) (msg : String)
  | wrapped (pre : String) (inner : GoError)
  | plain (msg : String)
deriving DecidableEq, Repr

/-- Whether an error is `Internal`-coded in the sense of `errutil`, looking
through `%w` wrapping as `errors.As` would. -/
def GoError.isInternalClass : GoError → Bool
  | .errutil .Internal _ => true
  | .wrapped _ inner => inner.isInternalClass
  | .plain _ => false

/-! ### Go map operations (association-list model)

`mapGet` is a Go map read (missing key reads the zero value), `mapSet` is
`m[k] = v`, and `mapAdd` is `m[k] += v` (which inserts the key when it is
absent, starting from the zero value). -/

def mapGet (m : List (Pod × Score)) (p : Pod) : Score :=
  match m with
  | [] => 0
  | e :: rest => if e.1 = p then e.2 else mapGet rest p

def mapSet (m : List (Pod × Score)) (p : Pod) (v : Score) : List (Pod × Score) :=
  match m with
  | [] => [(p, v)]
  | e :: rest => if e.1 = p then (p, v) :: rest else e :: mapSet rest p v

def mapAdd (m : List (Pod × Score)) (p : Pod) (v : Score) : List (Pod × Score) :=
  mapSet m p (mapGet m p + v)

/-- The key set of a modelled Go map. -/
def keys (m : List (Pod × Score)) : List Pod := m.map (·.1)

/-! ### SchedulerProfile pipeline (scheduler_profile.go) -/

/-- The filter loop body of `runFilterPlugins`: apply each filter in
registration order to the shrinking candidate set, breaking out as soon as
the set becomes empty. -/
def applyFilters (fs : List Filter) (ctx : SchedulingContext) (pods : List Pod) : List Pod :=
  match fs with
  | [] => pods
  | f :: rest =>
    let filteredPods := f.filter ctx pods
    if filteredPods.isEmpty then filteredPods else applyFilters rest ctx filteredPods

/-- Model of `runFilterPlugins`: run the filter chain over the pods snapshot. -/
def runFilterPlugins (p : SchedulerProfile) (ctx : SchedulingContext) : List Pod :=
  applyFilters p.filters ctx ctx.podsSnapshot

/-- Model of `runScorerPlugins`: initialise the accumulator with every candidate at 0,
then for each weighted scorer add `score * float64(weight)` for every
(pod, score) pair the scorer returned — note the Go code performs
`weightedScorePerPod[pod] += ...` for every returned pod, whether or not the
pod is a candidate. -/
def runScorerPlugins (p : SchedulerProfile) (ctx : SchedulingContext) (pods : List Pod) :
    List (Pod × Score) :=
  let weightedScorePerPod := pods.foldl (fun acc pod => mapSet acc pod 0) []
  p.scorers.foldl
    (fun acc ws =>
      (ws.scorer.score ctx pods).foldl
        (fun acc e => mapAdd acc e.1 (e.2 * (ws.weight : Score))) acc)
    weightedScorePerPod

/-- The materialisation step of `runPickerPlugin`: turn the accumulator
entries into `ScoredPod`s (in the model's map order; Go's is randomised). -/
def toScoredPods (m : List (Pod × Score)) : List ScoredPod :=
  m.map (fun e => { pod := e.1, score := e.2 })

/-- Model of `runPickerPlugin`: hand the materialised scored pods to the picker and
adopt its (possibly nil) result. -/
def runPickerPlugin (pk : Picker) (ctx : SchedulingContext)
    (weightedScorePerPod : List (Pod × Score)) : Option Result :=
  pk.pick ctx (toScoredPods weightedScorePerPod)

/-- Model of `SchedulerProfile.RunCycle`: filters, then the empty-candidate guard,
then scorers, then the picker; the picker's result is returned as-is with a
nil error (post-cycle plugins observe the result but return nothing, so they
do not appear in the pure model).  A nil `picker` field would make the Go
code panic on dereference; that abnormal termination is modelled as a
distinguished plain error and is unreachable for well-built profiles. -/
def RunCycle (p : SchedulerProfile) (ctx : SchedulingContext) :
    Except GoError (Option Result) :=
  let pods := runFilterPlugins p ctx
  if pods.isEmpty then
    .error (.errutil .Internal "no pods available for the given request")
  else
    let weightedScorePerPod := runScorerPlugins p ctx pods
    match p.picker with
    | none => .error (.plain "panic: nil picker dereference")
    | some pk => .ok (runPickerPlugin pk ctx weightedScorePerPod)

/-! ### Scheduler (scheduler.go) -/

/-- The per-profile result map `map[string]*types.Result` accumulated by
`Schedule`.  A stored value is a `*types.Result` and may be nil, hence
`Option Result`. -/
abbrev Results := List (String × Option Result)

/-- Go map assignment `profileExecutionResults[name] = result`. -/
def resultsSet (rs : Results) (n : String) (r : Option Result) : Results :=
  match rs with
  | [] => [(n, r)]
  | e :: rest => if e.1 = n then (n, r) :: rest else e :: resultsSet rest n r

/-- Go map read with presence: `v, ok := rs[n]`. -/
def resultsLookup (rs : Results) (n : String) : Option (Option Result) :=
  match rs with
  | [] => none
  | e :: rest => if e.1 = n then some e.2 else resultsLookup rest n

/-- The `ProfilePicker` plugin interface:
`Pick(request, allProfiles, priorResults)` selects the next batch of named
profiles to run. -/
structure ProfilePicker where
  name : String
  pick : LLMRequest → List (String × SchedulerProfile) → Results →
         List (String × SchedulerProfile)

/-- Model of `Scheduler`.  Its datastore exposes `PodGetAll()`; to make the number of
datastore reads observable, the datastore is modelled as the stream of
successive `PodGetAll` results, `datastore t` being what the t-th call
returns. -/
structure Scheduler where
  datastore : Nat → List Pod
  profilePicker : ProfilePicker
  profiles : List (String × SchedulerProfile)

/-- The inner `for name, profile := range profiles` body of `Schedule`: run
each picked profile's cycle, aborting on the first error (wrapped by
`fmt.Errorf("failed to run all required scheduling profiles - %w", err)`)
and otherwise storing the result under the picked name.  Go ranges over the
batch map in randomised order; the model fixes the list order, which is one
of the permitted executions. -/
def runPickedProfiles (ctx : SchedulingContext) (batch : List (String × SchedulerProfile))
    (acc : Results) : Except GoError Results :=
  match batch with
  | [] => .ok acc
  | (name, profile) :: rest =>
    match RunCycle profile ctx with
    | .error e => .error (.wrapped "failed to run all required scheduling profiles - " e)
    | .ok r => runPickedProfiles ctx rest (resultsSet acc name r)

/-- The unbounded `for` loop of `Schedule`, made structural with a fuel
bound on the number of profile-picker iterations; `none` means the loop did
not reach its `break` within `fuel` iterations. -/
def scheduleLoop (s : Scheduler) (ctx : SchedulingContext) (fuel : Nat) (acc : Results) :
    Option (Except GoError Results) :=
  match fuel with
  | 0 => none
  | fuel + 1 =>
    let profiles := s.profilePicker.pick ctx.req s.profiles acc
    if profiles.isEmpty then some (.ok acc)
    else
      match runPickedProfiles ctx profiles acc with
      | .error e => some (.error e)
      | .ok acc2 => scheduleLoop s ctx fuel acc2

/-- Model of `Scheduler.Schedule`: snapshot the datastore once at entry (read index
0 of the read stream), run the profile-picker loop, and finally fail with a
plain formatted error when no profile produced a result. -/
def Schedule (s : Scheduler) (req : LLMRequest) (fuel : Nat) :
    Option (Except GoError Results) :=
  let sCtx : SchedulingContext := { req := req, podsSnapshot := s.datastore 0 }
  match scheduleLoop s sCtx fuel [] with
  | none => none
  | some (.error e) => some (.error e)
  | some (.ok acc) =>
    if acc.isEmpty then
      some (.error (.plain ("failed to run any SchedulingProfile for the request - " ++ req.str)))
    else some (.ok acc)

/-! ### Profile construction (AddPlugins, scheduler_profile.go) -/

/-- Model of `framework.NewSchedulerProfile`. -/
def NewSchedulerProfile : SchedulerProfile :=
  { filters := [], scorers := [], picker := none
    postCyclePlugins := [], postResponsePlugins := [] }

/-- A concrete plugin object as handed to `AddPlugins`: one object that may
implement any subset of the role interfaces (a Go type assertion against a
role interface succeeds exactly when the corresponding field is present). -/
structure PluginImpl where
  name : String
  scorerImpl : Option (SchedulingContext → List Pod → List (Pod × Score))
  filterImpl : Option (SchedulingContext → List Pod → List Pod)
  pickerImpl : Option (SchedulingContext → List ScoredPod → Option Result)
  postCycleImpl : Bool
  postResponseImpl : Bool

/-- An argument to `AddPlugins` is either a plain plugin object or a
`*WeightedScorer` wrapping one (whose `Scorer` is the wrapped object). -/
inductive PluginObj
  | pluginOf (p : PluginImpl)
  | weightedScorer (w : Int) (p : PluginImpl)

/-- The `WeightedScorer` value appended to `scorers` when a wrapped scorer
is registered (in Go the wrapped object necessarily implements `Scorer`;
the default covers the unrepresentable case). -/
def wrapValue (w : Int) (pl : PluginImpl) : WeightedScorer :=
  { scorer := { name := pl.name, score := pl.scorerImpl.getD (fun _ _ => []) }
    weight := w }

/-- The trailing role checks of the `AddPlugins` loop body (PostCycle, then
PostResponse), reached only when the earlier checks did not return. -/
def finishRoles (p : SchedulerProfile) (pl : PluginImpl) : SchedulerProfile :=
  let p2 := if pl.postCycleImpl then
      { p with postCyclePlugins := p.postCyclePlugins ++ [pl.name] } else p
  if pl.postResponseImpl then
    { p2 with postResponsePlugins := p2.postResponsePlugins ++ [pl.name] } else p2

/-- The role checks of the `AddPlugins` loop body after scorer handling:
Filter (append), Picker (error if one is already registered — note the
filter append has already happened by then), PostCycle, PostResponse. -/
def registerRoles (p : SchedulerProfile) (pl : PluginImpl) :
    SchedulerProfile × Option String :=
  let p1 := match pl.filterImpl with
    | some f => { p with filters := p.filters ++ [{ name := pl.name, filter := f }] }
    | none => p
  match pl.pickerImpl with
  | some pkf =>
    match p1.picker with
    | some existing =>
      (p1, some ("failed to set " ++ pl.name ++
        " as picker, already have a registered picker plugin " ++ existing.name))
    | none => (finishRoles { p1 with picker := some { name := pl.name, pick := pkf } } pl, none)
  | none => (finishRoles p1 pl, none)

/-- Model of `SchedulerProfile.AddPlugins`.  The Go method mutates its receiver and
returns an error; the model returns the profile state at return time
together with the optional error, so that the mutations performed before a
failing check remain visible.  A `*WeightedScorer` argument is appended to
`scorers` and then unwrapped for the remaining role checks; a bare object
implementing `Scorer` is a hard error before any role registration. -/
def AddPlugins (p : SchedulerProfile) (objs : List PluginObj) :
    SchedulerProfile × Option String :=
  match objs with
  | [] => (p, none)
  | .weightedScorer w pl :: rest =>
    let p1 := { p with scorers := p.scorers ++ [wrapValue w pl] }
    (match registerRoles p1 pl with
     | (p2, some e) => (p2, some e)
     | (p2, none) => AddPlugins p2 rest)
  | .pluginOf pl :: rest =>
    if pl.scorerImpl.isSome then
      (p, some ("failed to register scorer " ++ pl.name ++
        " without a weight. follow function documentation to register a scorer"))
    else
      (match registerRoles p pl with
       | (p2, some e) => (p2, some e)
       | (p2, none) => AddPlugins p2 rest)

/-- Modelled from the spec: validation that a built profile carries a
picker.  Neither of the two source files under verification contains this
check (`WithPicker` only assigns, and `RunCycle` would dereference a nil
picker); the spec's error taxonomy lists "profile built with missing
picker" as a `Configuration` error raised by profile/config assembly, which
lives outside these files. -/
def validateProfileHasPicker (p : SchedulerProfile) : Option String :=
  match p.picker with
  | some _ => none
  | none => some "configuration error: profile built with missing picker"

/-! ### Lemmas about the Go map model -/

theorem keys_nil : keys [] = [] := rfl

theorem keys_cons (e : Pod × Score) (l : List (Pod × Score)) :
    keys (e :: l) = e.1 :: keys l := rfl

theorem mapGet_mapSet (m : List (Pod × Score)) (p : Pod) (v : Score) (q : Pod) :
    mapGet (mapSet m p v) q = if q = p then v else mapGet m q := by
  induction m with
  | nil =>
    by_cases h : q = p
    · subst h; simp [mapSet, mapGet]
    · have h' : ¬ p = q := fun hh => h hh.symm
      simp [mapSet, mapGet, h, h']
  | cons e rest ih =>
    by_cases he : e.1 = p
    · by_cases h : q = p
      · subst h; simp [mapSet, mapGet, he]
      · have h' : ¬ p = q := fun hh => h hh.symm
        have he' : ¬ e.1 = q := fun hh => h' (he.symm.trans hh)
        simp [mapSet, mapGet, he, h, h', he']
    · by_cases h : q = p
      · subst h
        have he' : ¬ e.1 = q := he
        simp [mapSet, mapGet, he, he', ih]
      · simp [mapSet, mapGet, he, h, ih]

theorem mapGet_mapAdd (m : List (Pod × Score)) (p : Pod) (v : Score) (q : Pod) :
    mapGet (mapAdd m p v) q = if q = p then mapGet m q + v else mapGet m q := by
  unfold mapAdd
  rw [mapGet_mapSet]
  by_cases h : q = p
  · subst h; simp
  · simp [h]

theorem mem_keys_mapSet (m : List (Pod × Score)) (p : Pod) (v : Score) (q : Pod) :
    q ∈ keys (mapSet m p v) ↔ q = p ∨ q ∈ keys m := by
  induction m with
  | nil => simp [mapSet, keys]
  | cons e rest ih =>
    by_cases he : e.1 = p
    · rw [show mapSet (e :: rest) p v = (p, v) :: rest from by simp [mapSet, he]]
      simp only [keys_cons, List.mem_cons, he]
      tauto
    · simp only [mapSet, if_neg he, keys_cons, List.mem_cons]
      rw [ih]
      tauto

theorem mem_keys_mapAdd (m : List (Pod × Score)) (p : Pod) (v : Score) (q : Pod) :
    q ∈ keys (mapAdd m p v) ↔ q = p ∨ q ∈ keys m := by
  unfold mapAdd; exact mem_keys_mapSet m p _ q

theorem mapGet_eq_zero_of_not_mem (q : Pod) :
    ∀ m : List (Pod × Score), q ∉ keys m → mapGet m q = 0 := by
  intro m
  induction m with
  | nil => intro _; rfl
  | cons e rest ih =>
    intro h
    simp only [keys_cons, List.mem_cons] at h
    push_neg at h
    simp only [mapGet, if_neg (fun hh : e.1 = q => h.1 hh.symm)]
    exact ih h.2

/-! ### Lemmas about the scoring folds -/

theorem mapGet_scoreFold (w : Score) (q : Pod) :
    ∀ (scores acc : List (Pod × Score)),
      mapGet (scores.foldl (fun a e => mapAdd a e.1 (e.2 * w)) acc) q
        = mapGet acc q + ((scores.map (fun e => if e.1 = q then e.2 * w else 0)).sum) := by
  intro scores
  induction scores with
  | nil => intro acc; simp
  | cons e rest ih =>
    intro acc
    simp only [List.foldl_cons, List.map_cons, List.sum_cons]
    rw [ih, mapGet_mapAdd]
    by_cases h : q = e.1
    · rw [if_pos h, if_pos h.symm]; ring
    · rw [if_neg h, if_neg (fun hh : e.1 = q => h hh.symm)]; ring

theorem mem_keys_scoreFold (w : Score) (q : Pod) :
    ∀ (scores acc : List (Pod × Score)),
      q ∈ keys (scores.foldl (fun a e => mapAdd a e.1 (e.2 * w)) acc)
        ↔ q ∈ keys acc ∨ q ∈ keys scores := by
  intro scores
  induction scores with
  | nil => intro acc; simp [keys_nil]
  | cons e rest ih =>
    intro acc
    simp only [List.foldl_cons, keys_cons, List.mem_cons]
    rw [ih, mem_keys_mapAdd]
    tauto

theorem sum_ite_eq_zero_of_not_mem (w : Score) (q : Pod) :
    ∀ scores : List (Pod × Score), q ∉ keys scores →
      ((scores.map (fun e => if e.1 = q then e.2 * w else 0)).sum) = 0 := by
  intro scores
  induction scores with
  | nil => intro _; simp
  | cons e rest ih =>
    intro h
    simp only [keys_cons, List.mem_cons] at h
    push_neg at h
    simp only [List.map_cons, List.sum_cons, if_neg (fun hh : e.1 = q => h.1 hh.symm)]
    rw [ih h.2]; ring

theorem sum_ite_of_nodup (w : Score) (q : Pod) :
    ∀ scores : List (Pod × Score), (keys scores).Nodup →
      ((scores.map (fun e => if e.1 = q then e.2 * w else 0)).sum)
        = mapGet scores q * w := by
  intro scores
  induction scores with
  | nil => intro _; simp [mapGet]
  | cons e rest ih =>
    intro h
    simp only [keys_cons, List.nodup_cons] at h
    simp only [List.map_cons, List.sum_cons, mapGet]
    by_cases hq : e.1 = q
    · rw [if_pos hq, if_pos hq]
      have hnm : q ∉ keys rest := hq ▸ h.1
      rw [sum_ite_eq_zero_of_not_mem w q rest hnm]; ring
    · rw [if_neg hq, if_neg hq, ih h.2]; ring

theorem mapGet_initFold (q : Pod) :
    ∀ (pods : List Pod) (acc : List (Pod × Score)),
      mapGet (pods.foldl (fun a pod => mapSet a pod 0) acc) q
        = if q ∈ pods then 0 else mapGet acc q := by
  intro pods
  induction pods with
  | nil => intro acc; simp
  | cons p rest ih =>
    intro acc
    simp only [List.foldl_cons, List.mem_cons]
    rw [ih, mapGet_mapSet]
    by_cases h1 : q ∈ rest
    · simp [h1]
    · by_cases h2 : q = p
      · simp [h1, h2]
      · simp [h1, h2]

theorem mem_keys_initFold (q : Pod) :
    ∀ (pods : List Pod) (acc : List (Pod × Score)),
      q ∈ keys (pods.foldl (fun a pod => mapSet a pod 0) acc)
        ↔ q ∈ keys acc ∨ q ∈ pods := by
  intro pods
  induction pods with
  | nil => intro acc; simp
  | cons p rest ih =>
    intro acc
    simp only [List.foldl_cons, List.mem_cons]
    rw [ih, mem_keys_mapSet]
    tauto

theorem mapGet_scorerFold (ctx : SchedulingContext) (pods : List Pod) (q : Pod) :
    ∀ (scorers : List WeightedScorer) (acc : List (Pod × Score)),
      (∀ ws ∈ scorers, (keys (ws.scorer.score ctx pods)).Nodup) →
      mapGet (scorers.foldl
        (fun acc ws => (ws.scorer.score ctx pods).foldl
          (fun a e => mapAdd a e.1 (e.2 * (ws.weight : Score))) acc) acc) q
        = mapGet acc q
          + ((scorers.map
              (fun ws => mapGet (ws.scorer.score ctx pods) q * (ws.weight : Score))).sum) := by
  intro scorers
  induction scorers with
  | nil => intro acc _; simp
  | cons ws rest ih =>
    intro acc h
    simp only [List.foldl_cons, List.map_cons, List.sum_cons]
    rw [ih _ (fun x hx => h x (List.mem_cons_of_mem _ hx)),
        mapGet_scoreFold, sum_ite_of_nodup _ _ _ (h ws (List.mem_cons_self _ _))]
    ring

theorem mem_keys_scorerFold (ctx : SchedulingContext) (pods : List Pod) (q : Pod) :
    ∀ (scorers : List WeightedScorer) (acc : List (Pod × Score)),
      q ∈ keys (scorers.foldl
        (fun acc ws => (ws.scorer.score ctx pods).foldl
          (fun a e => mapAdd a e.1 (e.2 * (ws.weight : Score))) acc) acc)
        ↔ q ∈ keys acc ∨ ∃ ws ∈ scorers, q ∈ keys (ws.scorer.score ctx pods) := by
  intro scorers
  induction scorers with
  | nil => intro acc; simp
  | cons ws rest ih =>
    intro acc
    simp only [List.foldl_cons]
    rw [ih, mem_keys_scoreFold]
    constructor
    · rintro ((h | h) | h)
      · exact Or.inl h
      · exact Or.inr ⟨ws, List.mem_cons_self _ _, h⟩
      · obtain ⟨x, hx, hq⟩ := h
        exact Or.inr ⟨x, List.mem_cons_of_mem _ hx, hq⟩
    · rintro (h | ⟨x, hx, hq⟩)
      · exact Or.inl (Or.inl h)
      · rcases List.mem_cons.mp hx with h1 | h1
        · subst h1; exact Or.inl (Or.inr hq)
        · exact Or.inr ⟨x, h1, hq⟩

/-! ### Concrete plugins and profiles used by witnesses and counterexamples -/

/-- A request/snapshot context with a single pod "p1". -/
def cexCtx : SchedulingContext := { req := { str := "r" }, podsSnapshot := ["p1"] }

/-- A scorer that returns a score for pod "p2" only — a pod that need not be
among its input candidates — wrapped with weight 2. -/
def cexForeignScorer : WeightedScorer :=
  { scorer := { name := "s", score := fun _ _ => [("p2", 5)] }, weight := 2 }

/-- A picker that picks the last scored pod it is given (so it always picks
from the scored pods handed to it). -/
def lastPicker : Picker :=
  { name := "last", pick := fun _ sps => sps.getLast?.map (fun sp => { targetPod := sp.pod }) }

/-- Profile with no filters, the foreign-pod scorer, and the last picker. -/
def cexScorerProf : SchedulerProfile :=
  { filters := [], scorers := [cexForeignScorer], picker := some lastPicker
    postCyclePlugins := [], postResponsePlugins := [] }

/-- A scorer returning a score for candidate "p1", wrapped with weight 2. -/
def wScorer : WeightedScorer :=
  { scorer := { name := "w", score := fun _ _ => [("p1", 3)] }, weight := 2 }

/-- Profile with no filters, the candidate scorer `wScorer`, and the last
picker. -/
def wProf : SchedulerProfile :=
  { filters := [], scorers := [wScorer], picker := some lastPicker
    postCyclePlugins := [], postResponsePlugins := [] }

/-! ### Claim C1 -/

/-- C1 (amended): with each scorer's returned map holding each pod at most
once (as a Go map does), the score accumulator built by `runScorerPlugins`
maps exactly the union of the post-filter candidates and the pods returned
by some scorer, and every pod's aggregate is the sum over the weighted
scorers of its score times the scorer's weight, a pod absent from a
scorer's map contributing zero for that scorer.  (The original claim's
restriction to candidate pods fails: a returned pair for a non-candidate
pod is added too, see the counterexample.) -/
theorem runScorerPlugins_weighted_linearity
    (prof : SchedulerProfile) (ctx : SchedulingContext) (pods : List Pod) (q : Pod)
    (hnd : ∀ ws ∈ prof.scorers, (keys (ws.scorer.score ctx pods)).Nodup) :
    (q ∈ keys (runScorerPlugins prof ctx pods)
       ↔ q ∈ pods ∨ ∃ ws ∈ prof.scorers, q ∈ keys (ws.scorer.score ctx pods))
    ∧ mapGet (runScorerPlugins prof ctx pods) q
        = ((prof.scorers.map
            (fun ws => mapGet (ws.scorer.score ctx pods) q * (ws.weight : Score))).sum) := by
  have hzeta : runScorerPlugins prof ctx pods
      = prof.scorers.foldl
          (fun acc ws => (ws.scorer.score ctx pods).foldl
            (fun a e => mapAdd a e.1 (e.2 * (ws.weight : Score))) acc)
          (pods.foldl (fun a pod => mapSet a pod 0) []) := rfl
  rw [hzeta]
  constructor
  · rw [mem_keys_scorerFold, mem_keys_initFold]
    simp [keys_nil]
  · rw [mapGet_scorerFold ctx pods q prof.scorers _ hnd, mapGet_initFold]
    simp [mapGet]

/-- C1 counterexample: with candidate set `["p1"]`, a scorer returning the
pair `("p2", 5)` for the non-candidate pod "p2" (weight 2) makes
`runScorerPlugins` add that pair to the accumulator, which ends up mapping
"p2" to 10 although "p2" is not a candidate — refuting the claim that such
a pair is not added. -/
theorem runScorerPlugins_adds_noncandidate_pair :
    runScorerPlugins cexScorerProf cexCtx ["p1"] = [("p1", 0), ("p2", 10)]
    ∧ ("p2" : Pod) ∉ (["p1"] : List Pod) := by
  constructor
  · simp [runScorerPlugins, cexScorerProf, cexForeignScorer, mapAdd, mapSet, mapGet]
    norm_num
  · decide

/-- Witness for C1 at a concrete input: profile `wProf`, candidates
`["p1", "p2"]`, pod "p1". -/
theorem runScorerPlugins_weighted_linearity_witness :
    (("p1" : Pod) ∈ keys (runScorerPlugins wProf cexCtx ["p1", "p2"])
       ↔ ("p1" : Pod) ∈ (["p1", "p2"] : List Pod)
         ∨ ∃ ws ∈ wProf.scorers, ("p1" : Pod) ∈ keys (ws.scorer.score cexCtx ["p1", "p2"]))
    ∧ mapGet (runScorerPlugins wProf cexCtx ["p1", "p2"]) "p1"
        = ((wProf.scorers.map
            (fun ws => mapGet (ws.scorer.score cexCtx ["p1", "p2"]) "p1" * (ws.weight : Score))).sum) :=
  runScorerPlugins_weighted_linearity wProf cexCtx ["p1", "p2"] "p1" (by decide)

/-! ### RunCycle characterizations -/

theorem RunCycle_eq_error_of_empty (prof : SchedulerProfile) (ctx : SchedulingContext)
    (he : (runFilterPlugins prof ctx).isEmpty = true) :
    RunCycle prof ctx = .error (.errutil .Internal "no pods available for the given request") := by
  unfold RunCycle
  simp [he]

theorem RunCycle_eq_pick_of_nonempty (prof : SchedulerProfile) (ctx : SchedulingContext)
    (pk : Picker) (hpk : prof.picker = some pk)
    (hne : (runFilterPlugins prof ctx).isEmpty = false) :
    RunCycle prof ctx
      = .ok (runPickerPlugin pk ctx
          (runScorerPlugins prof ctx (runFilterPlugins prof ctx))) := by
  unfold RunCycle
  simp [hne, hpk]

theorem map_pod_toScoredPods (m : List (Pod × Score)) :
    (toScoredPods m).map ScoredPod.pod = keys m := by
  induction m with
  | nil => rfl
  | cons e rest ih => simp [toScoredPods, keys_cons] at ih ⊢; exact ih

/-- The last-picker always picks one of the scored pods handed to it. -/
theorem lastPicker_picks_from_input (ctx : SchedulingContext) (sps : List ScoredPod)
    (res : Result) (h : lastPicker.pick ctx sps = some res) :
    res.targetPod ∈ sps.map ScoredPod.pod := by
  simp only [lastPicker] at h
  obtain ⟨sp, hsp, hres⟩ := Option.map_eq_some'.mp h
  have hmem : sp ∈ sps := by
    obtain ⟨hne, heq⟩ :=
      List.mem_getLast?_eq_getLast (l := sps) (x := sp) (by rw [Option.mem_def, hsp])
    rw [heq]
    exact List.getLast_mem hne
  rw [← hres]
  exact List.mem_map.mpr ⟨sp, hmem, rfl⟩

/-! ### Claim C2 -/

/-- C2 (amended): for a profile cycle that succeeds with a result, assuming
the picker picks from the scored pods it is given, the result's pod is a
member of the post-filter candidate set OR of the key set of some scorer's
returned map.  (The original claim — membership in the post-filter set
alone — fails because the scored set handed to the picker also contains
every pod any scorer returned a score for, see the counterexample.) -/
theorem RunCycle_target_in_candidates_or_scorer_output
    (prof : SchedulerProfile) (ctx : SchedulingContext) (pk : Picker) (r : Result)
    (hpk : prof.picker = some pk)
    (hdom : ∀ sps res, pk.pick ctx sps = some res → res.targetPod ∈ sps.map ScoredPod.pod)
    (hrun : RunCycle prof ctx = .ok (some r)) :
    r.targetPod ∈ runFilterPlugins prof ctx
      ∨ ∃ ws ∈ prof.scorers,
          r.targetPod ∈ keys (ws.scorer.score ctx (runFilterPlugins prof ctx)) := by
  rcases hne : (runFilterPlugins prof ctx).isEmpty with _ | _
  · rw [RunCycle_eq_pick_of_nonempty prof ctx pk hpk hne] at hrun
    have h1 : runPickerPlugin pk ctx
        (runScorerPlugins prof ctx (runFilterPlugins prof ctx)) = some r := by
      exact Except.ok.inj hrun
    unfold runPickerPlugin at h1
    have h2 := hdom _ _ h1
    rw [map_pod_toScoredPods] at h2
    have hzeta : runScorerPlugins prof ctx (runFilterPlugins prof ctx)
        = prof.scorers.foldl
            (fun acc ws => (ws.scorer.score ctx (runFilterPlugins prof ctx)).foldl
              (fun a e => mapAdd a e.1 (e.2 * (ws.weight : Score))) acc)
            ((runFilterPlugins prof ctx).foldl (fun a pod => mapSet a pod 0) []) := rfl
    rw [hzeta, mem_keys_scorerFold, mem_keys_initFold] at h2
    simpa [keys_nil] using h2
  · rw [RunCycle_eq_error_of_empty prof ctx hne] at hrun
    exact absurd hrun (by simp)

/-- C2 counterexample: in the profile `cexScorerProf` the post-filter
candidate set is `["p1"]`, yet the scored pods handed to the picker also
contain the scorer-injected pod "p2", and the cycle's result is "p2" — a
pod outside the post-filter candidate set — although the picker (picking
the last scored pod) picked from the scored pods it was given. -/
theorem RunCycle_returns_noncandidate_pod :
    RunCycle cexScorerProf cexCtx = .ok (some { targetPod := "p2" })
    ∧ ("p2" : Pod) ∉ runFilterPlugins cexScorerProf cexCtx
    ∧ ("p2" : Pod) ∈ (toScoredPods (runScorerPlugins cexScorerProf cexCtx
        (runFilterPlugins cexScorerProf cexCtx))).map ScoredPod.pod := by
  refine ⟨?_, ?_, ?_⟩
  · simp [RunCycle, runFilterPlugins, applyFilters, cexScorerProf, cexCtx,
      runScorerPlugins, cexForeignScorer, mapAdd, mapSet, mapGet,
      runPickerPlugin, toScoredPods, lastPicker]
  · simp [runFilterPlugins, applyFilters, cexScorerProf, cexCtx]
  · simp [runFilterPlugins, applyFilters, cexScorerProf, cexCtx,
      runScorerPlugins, cexForeignScorer, mapAdd, mapSet, mapGet,
      toScoredPods]

/-- Witness for C2 at a concrete input: profile `wProf` (scorer over the
candidate "p1", last picker) on the one-pod snapshot. -/
theorem RunCycle_target_in_candidates_or_scorer_output_witness :
    ({ targetPod := "p1" } : Result).targetPod ∈ runFilterPlugins wProf cexCtx
      ∨ ∃ ws ∈ wProf.scorers,
          ({ targetPod := "p1" } : Result).targetPod
            ∈ keys (ws.scorer.score cexCtx (runFilterPlugins wProf cexCtx)) :=
  RunCycle_target_in_candidates_or_scorer_output wProf cexCtx lastPicker
    { targetPod := "p1" } rfl (lastPicker_picks_from_input cexCtx)
    (by simp [RunCycle, runFilterPlugins, applyFilters, wProf, cexCtx,
      runScorerPlugins, wScorer, mapAdd, mapSet, mapGet,
      runPickerPlugin, toScoredPods, lastPicker])

/-! ### Claim C3 -/

/-- A picker that always returns a nil result. -/
def nilPicker : Picker := { name := "nilpick", pick := fun _ _ => none }

/-- Profile with no filters, no scorers, and the nil-returning picker. -/
def cexNilProf : SchedulerProfile :=
  { filters := [], scorers := [], picker := some nilPicker
    postCyclePlugins := [], postResponsePlugins := [] }

/-- C3 (amended): when the post-filter candidate set is non-empty but the
picker returns nil, `RunCycle` returns the nil result together with a nil
error — no Internal-class (or any) error is raised; the source checks the
candidate set for emptiness but never the picker's result.  (The original
claim of an Internal failure is refuted by the counterexample.) -/
theorem RunCycle_nil_pick_returns_ok_none
    (prof : SchedulerProfile) (ctx : SchedulingContext) (pk : Picker)
    (hpk : prof.picker = some pk)
    (hne : (runFilterPlugins prof ctx).isEmpty = false)
    (hnil : pk.pick ctx (toScoredPods (runScorerPlugins prof ctx
        (runFilterPlugins prof ctx))) = none) :
    RunCycle prof ctx = .ok none := by
  rw [RunCycle_eq_pick_of_nonempty prof ctx pk hpk hne]
  unfold runPickerPlugin
  rw [hnil]

/-- C3 counterexample: the profile `cexNilProf` has the non-empty
post-filter candidate set `["p1"]` and a picker that returns nil, yet
`RunCycle` returns `(nil, nil)` — `.ok none` — rather than failing with an
Internal-class error. -/
theorem RunCycle_nil_pick_no_error :
    RunCycle cexNilProf cexCtx = .ok none
    ∧ (runFilterPlugins cexNilProf cexCtx).isEmpty = false := by
  constructor
  · simp [RunCycle, runFilterPlugins, applyFilters, cexNilProf, cexCtx,
      runScorerPlugins, runPickerPlugin, toScoredPods, nilPicker]
  · decide

/-- Witness for C3 at a concrete input. -/
theorem RunCycle_nil_pick_returns_ok_none_witness :
    RunCycle cexNilProf cexCtx = .ok none :=
  RunCycle_nil_pick_returns_ok_none cexNilProf cexCtx nilPicker rfl (by decide) rfl

/-! ### Claim C6 -/

theorem applyFilters_append_of_ne_nil (ctx : SchedulingContext) :
    ∀ (fs1 fs2 : List Filter) (pods : List Pod),
      applyFilters fs1 ctx pods ≠ [] →
      applyFilters (fs1 ++ fs2) ctx pods = applyFilters fs2 ctx (applyFilters fs1 ctx pods) := by
  intro fs1
  induction fs1 with
  | nil => intro fs2 pods _; rfl
  | cons f rest ih =>
    intro fs2 pods h
    rcases hfp : (f.filter ctx pods).isEmpty with _ | _
    · have hs : applyFilters (f :: rest) ctx pods = applyFilters rest ctx (f.filter ctx pods) := by
        simp [applyFilters, hfp]
      rw [hs] at h
      have : applyFilters ((f :: rest) ++ fs2) ctx pods
          = applyFilters (rest ++ fs2) ctx (f.filter ctx pods) := by
        simp [applyFilters, hfp]
      rw [this, hs, ih fs2 (f.filter ctx pods) h]
    · exfalso
      apply h
      simp [applyFilters, hfp, List.isEmpty_iff.mp hfp]

theorem applyFilters_subset (ctx : SchedulingContext) :
    ∀ (fs : List Filter) (pods : List Pod),
      (∀ fl ∈ fs, ∀ (ps : List Pod) (q : Pod), q ∈ fl.filter ctx ps → q ∈ ps) →
      ∀ q ∈ applyFilters fs ctx pods, q ∈ pods := by
  intro fs
  induction fs with
  | nil => intro pods _ q hq; exact hq
  | cons f rest ih =>
    intro pods hsub q hq
    rcases hfp : (f.filter ctx pods).isEmpty with _ | _
    · rw [show applyFilters (f :: rest) ctx pods
          = applyFilters rest ctx (f.filter ctx pods) from by simp [applyFilters, hfp]] at hq
      have h1 : q ∈ f.filter ctx pods :=
        ih (f.filter ctx pods) (fun fl hfl => hsub fl (List.mem_cons_of_mem _ hfl)) q hq
      exact hsub f (List.mem_cons_self _ _) pods q h1
    · rw [show applyFilters (f :: rest) ctx pods = f.filter ctx pods from by
          simp [applyFilters, hfp]] at hq
      exact hsub f (List.mem_cons_self _ _) pods q hq

/-- C6: filters are applied in registration order to a shrinking candidate
set.  First conjunct: if the chain over a prefix leaves a non-empty set and
the next filter returns the empty set, then whatever filters follow and
whatever scorers and picker the profile has (none of them can influence the
outcome — i.e. they are not invoked), `RunCycle` fails with the
`Internal`-class error "no pods available for the given request".  Second
conjunct: the same failure for an initially empty snapshot (with filters
that return subsets of their input, as the filter contract requires).
Third conjunct: under the filter contract the post-filter candidate set is
a subset of the snapshot (the shrinking-set property). -/
theorem filter_short_circuit_internal_error (ctx : SchedulingContext) :
    (∀ (fs1 : List Filter) (f : Filter) (fs2 : List Filter)
        (scorers : List WeightedScorer) (pk : Option Picker) (pcs prs : List String),
        applyFilters fs1 ctx ctx.podsSnapshot ≠ [] →
        f.filter ctx (applyFilters fs1 ctx ctx.podsSnapshot) = [] →
        RunCycle { filters := fs1 ++ f :: fs2, scorers := scorers, picker := pk,
                   postCyclePlugins := pcs, postResponsePlugins := prs } ctx
          = .error (.errutil .Internal "no pods available for the given request"))
    ∧ (∀ (filters : List Filter) (scorers : List WeightedScorer) (pk : Option Picker)
        (pcs prs : List String),
        ctx.podsSnapshot = [] →
        (∀ fl ∈ filters, ∀ (ps : List Pod) (q : Pod), q ∈ fl.filter ctx ps → q ∈ ps) →
        RunCycle { filters := filters, scorers := scorers, picker := pk,
                   postCyclePlugins := pcs, postResponsePlugins := prs } ctx
          = .error (.errutil .Internal "no pods available for the given request"))
    ∧ (∀ (fs : List Filter) (pods : List Pod),
        (∀ fl ∈ fs, ∀ (ps : List Pod) (q : Pod), q ∈ fl.filter ctx ps → q ∈ ps) →
        ∀ q ∈ applyFilters fs ctx pods, q ∈ pods) := by
  refine ⟨?_, ?_, applyFilters_subset ctx⟩
  · intro fs1 f fs2 scorers pk pcs prs h1 h2
    apply RunCycle_eq_error_of_empty
    have hchain : applyFilters (fs1 ++ f :: fs2) ctx ctx.podsSnapshot = [] := by
      rw [applyFilters_append_of_ne_nil ctx fs1 (f :: fs2) ctx.podsSnapshot h1]
      simp [applyFilters, h2]
    simp [runFilterPlugins, hchain]
  · intro filters scorers pk pcs prs hemp hsub
    apply RunCycle_eq_error_of_empty
    have hmem := applyFilters_subset ctx filters ctx.podsSnapshot hsub
    rw [hemp] at hmem
    have hx : applyFilters filters ctx ctx.podsSnapshot = [] := by
      rw [hemp]
      exact List.eq_nil_iff_forall_not_mem.mpr
        (fun a ha => absurd (hmem a ha) (List.not_mem_nil a))
    simp [runFilterPlugins, hx]

/-- The identity filter. -/
def idFilter : Filter := { name := "idf", filter := fun _ pods => pods }

/-- A filter dropping every pod. -/
def emptyFilter : Filter := { name := "drop", filter := fun _ _ => [] }

/-- A context whose snapshot is empty. -/
def emptyCtx : SchedulingContext := { req := { str := "r" }, podsSnapshot := [] }

/-- A filter that would re-introduce a pod if it were ever invoked — used
after the emptying filter to show that later filters are not consulted. -/
def resurrectFilter : Filter := { name := "resurrect", filter := fun _ _ => ["p9"] }

/-- Witness for C6 at concrete inputs: a chain whose second filter empties
the non-empty set ["p1"], and an initially empty snapshot. -/
theorem filter_short_circuit_internal_error_witness :
    RunCycle { filters := [idFilter] ++ emptyFilter :: [resurrectFilter],
               scorers := [cexForeignScorer], picker := some lastPicker,
               postCyclePlugins := [], postResponsePlugins := [] } cexCtx
      = .error (.errutil .Internal "no pods available for the given request")
    ∧ RunCycle { filters := [], scorers := [], picker := some lastPicker,
                 postCyclePlugins := [], postResponsePlugins := [] } emptyCtx
      = .error (.errutil .Internal "no pods available for the given request") :=
  ⟨(filter_short_circuit_internal_error cexCtx).1 [idFilter] emptyFilter
      [resurrectFilter] [cexForeignScorer] (some lastPicker) [] []
      (by decide) rfl,
   (filter_short_circuit_internal_error emptyCtx).2.1 [] [] (some lastPicker) [] []
      rfl (fun fl hfl => absurd hfl (List.not_mem_nil fl))⟩

/-! ### Claim C4 -/

theorem runPickedProfiles_error_shape (ctx : SchedulingContext) :
    ∀ (batch : List (String × SchedulerProfile)) (acc : Results) (e : GoError),
      runPickedProfiles ctx batch acc = .error e →
      ∃ e0, e = .wrapped "failed to run all required scheduling profiles - " e0 := by
  intro batch
  induction batch with
  | nil => intro acc e h; simp [runPickedProfiles] at h
  | cons nb rest ih =>
    intro acc e h
    obtain ⟨name, prof⟩ := nb
    rcases hc : RunCycle prof ctx with e0 | r
    · simp only [runPickedProfiles, hc] at h
      have hh : GoError.wrapped "failed to run all required scheduling profiles - " e0 = e := by
        simpa using h
      exact ⟨e0, hh.symm⟩
    · simp only [runPickedProfiles, hc] at h
      exact ih _ e h

theorem scheduleLoop_error_shape (s : Scheduler) (ctx : SchedulingContext) :
    ∀ (fuel : Nat) (acc : Results) (e : GoError),
      scheduleLoop s ctx fuel acc = some (.error e) →
      ∃ e0, e = .wrapped "failed to run all required scheduling profiles - " e0 := by
  intro fuel
  induction fuel with
  | zero => intro acc e h; simp [scheduleLoop] at h
  | succ n ih =>
    intro acc e h
    simp only [scheduleLoop] at h
    by_cases hb : (s.profilePicker.pick ctx.req s.profiles acc).isEmpty
    · rw [if_pos hb] at h
      simp at h
    · rw [if_neg hb] at h
      rcases hr : runPickedProfiles ctx (s.profilePicker.pick ctx.req s.profiles acc) acc
        with e' | acc2
      · simp only [hr] at h
        have he : e' = e := by simpa using h
        obtain ⟨e0, he0⟩ := runPickedProfiles_error_shape ctx _ _ _ hr
        exact ⟨e0, he ▸ he0⟩
      · simp only [hr] at h
        exact ih _ _ h

/-- C4 (amended): a cycle error does abort the whole `Schedule` call with no
partial result map, but the error is not returned unchanged: `Schedule`
returns a new error wrapping the cycle error under the message "failed to
run all required scheduling profiles - " (the cycle error is preserved as
the wrapped cause).  First conjunct: the per-batch runner stops at the
first failing cycle and returns its error wrapped.  Second conjunct: every
error `Schedule` returns is either such a wrapped cycle error or its own
zero-results error.  Third conjunct: when no profile produced a result (the
picker returned no profile), `Schedule` fails with its own plain formatted
error "failed to run any SchedulingProfile for the request - <req>" (which
is not an `errutil`-coded `Internal` error). -/
theorem Schedule_error_propagation :
    (∀ (ctx : SchedulingContext) (name : String) (prof : SchedulerProfile)
        (rest : List (String × SchedulerProfile)) (acc : Results) (e0 : GoError),
        RunCycle prof ctx = .error e0 →
        runPickedProfiles ctx ((name, prof) :: rest) acc
          = .error (.wrapped "failed to run all required scheduling profiles - " e0))
    ∧ (∀ (s : Scheduler) (req : LLMRequest) (fuel : Nat) (e : GoError),
        Schedule s req fuel = some (.error e) →
        (∃ e0, e = .wrapped "failed to run all required scheduling profiles - " e0)
        ∨ e = .plain ("failed to run any SchedulingProfile for the request - " ++ req.str))
    ∧ (∀ (s : Scheduler) (req : LLMRequest) (fuel : Nat),
        s.profilePicker.pick req s.profiles [] = [] →
        Schedule s req (fuel + 1)
          = some (.error (.plain ("failed to run any SchedulingProfile for the request - "
              ++ req.str)))) := by
  refine ⟨?_, ?_, ?_⟩
  · intro ctx name prof rest acc e0 h
    simp [runPickedProfiles, h]
  · intro s req fuel e h
    simp only [Schedule] at h
    rcases hl : scheduleLoop s { req := req, podsSnapshot := s.datastore 0 } fuel []
      with _ | x
    · simp [hl] at h
    · rcases x with e' | acc
      · simp only [hl] at h
        have he : e' = e := by simpa using h
        exact Or.inl (he ▸ scheduleLoop_error_shape s _ fuel [] e' hl)
      · simp only [hl] at h
        by_cases hacc : acc.isEmpty
        · rw [if_pos hacc] at h
          have hh : GoError.plain ("failed to run any SchedulingProfile for the request - "
              ++ req.str) = e := by simpa using h
          exact Or.inr hh.symm
        · rw [if_neg hacc] at h
          simp at h
  · intro s req fuel hpick
    simp [Schedule, scheduleLoop, hpick]

/-- A profile with no filters and no scorers whose picker picks the last
scored pod; on an empty snapshot its cycle fails with the Internal
no-pods error. -/
def failProf : SchedulerProfile :=
  { filters := [], scorers := [], picker := some lastPicker
    postCyclePlugins := [], postResponsePlugins := [] }

/-- The default "all profiles" profile picker: all profiles when no result
has been recorded yet, empty afterwards. -/
def alwaysAllPicker : ProfilePicker :=
  { name := "all", pick := fun _ all acc => if acc.isEmpty then all else [] }

/-- A scheduler over an empty datastore with the single profile "default". -/
def cexFailSched : Scheduler :=
  { datastore := fun _ => [], profilePicker := alwaysAllPicker
    profiles := [("default", failProf)] }

/-- A scheduler whose profile picker never picks any profile. -/
def cexEmptyPickSched : Scheduler :=
  { datastore := fun _ => ["p1"]
    profilePicker := { name := "nonepick", pick := fun _ _ _ => [] }
    profiles := [("default", failProf)] }

/-- C4 counterexample: the cycle error (Internal, "no pods available...") is
returned by `Schedule` wrapped under a new message — a different error
value than the cycle's own, refuting "that same error unchanged"; and with
zero profiles run, `Schedule`'s own error is a plain formatted error, not
an `errutil`-coded Internal one. -/
theorem Schedule_wraps_cycle_error :
    RunCycle failProf { req := { str := "r" }, podsSnapshot := [] }
      = .error (.errutil .Internal "no pods available for the given request")
    ∧ Schedule cexFailSched { str := "r" } 2
        = some (.error (.wrapped "failed to run all required scheduling profiles - "
            (.errutil .Internal "no pods available for the given request")))
    ∧ GoError.wrapped "failed to run all required scheduling profiles - "
          (.errutil .Internal "no pods available for the given request")
        ≠ GoError.errutil .Internal "no pods available for the given request"
    ∧ Schedule cexEmptyPickSched { str := "r" } 2
        = some (.error (.plain "failed to run any SchedulingProfile for the request - r"))
    ∧ (GoError.plain "failed to run any SchedulingProfile for the request - r").isInternalClass
        = false := by
  refine ⟨?_, ?_, ?_, ?_, rfl⟩
  · simp [RunCycle, runFilterPlugins, applyFilters, failProf]
  · simp [Schedule, scheduleLoop, cexFailSched, alwaysAllPicker, runPickedProfiles,
      RunCycle, runFilterPlugins, applyFilters, failProf]
  · intro h
    exact absurd h (by decide)
  · simp [Schedule, scheduleLoop, cexEmptyPickSched]

/-- Witness for C4 at concrete inputs: the wrapped abort through
`runPickedProfiles`, and the zero-results plain error. -/
theorem Schedule_error_propagation_witness :
    runPickedProfiles { req := { str := "r" }, podsSnapshot := [] }
        [("default", failProf)] []
      = .error (.wrapped "failed to run all required scheduling profiles - "
          (.errutil .Internal "no pods available for the given request"))
    ∧ Schedule cexEmptyPickSched { str := "r" } 3
        = some (.error (.plain ("failed to run any SchedulingProfile for the request - "
            ++ ({ str := "r" } : LLMRequest).str))) :=
  ⟨Schedule_error_propagation.1 { req := { str := "r" }, podsSnapshot := [] }
      "default" failProf [] []
      (.errutil .Internal "no pods available for the given request")
      (by simp [RunCycle, runFilterPlugins, applyFilters, failProf]),
   Schedule_error_propagation.2.2 cexEmptyPickSched { str := "r" } 2 rfl⟩

/-! ### Claim C5 -/

/-- C5 (amended): `Schedule` runs every (name, profile) entry the
ProfilePicker returns and stores the cycle result under the returned name,
whether or not that name is among the scheduler's registered profiles — an
unregistered name is NOT ignored (the loop never consults `allProfiles`
for membership).  Stated for a picker that returns the unregistered entry
once: the result map holds exactly that entry. -/
theorem Schedule_runs_unregistered_profile_entry
    (name : String) (prof : SchedulerProfile) (all : List (String × SchedulerProfile))
    (ds : Nat → List Pod) (req : LLMRequest) (r : Option Result)
    (hname : name ∉ all.map Prod.fst)
    (hrun : RunCycle prof { req := req, podsSnapshot := ds 0 } = .ok r) :
    Schedule { datastore := ds
               profilePicker := { name := "ghostpick"
                                  pick := fun _ _ acc =>
                                    if acc.isEmpty then [(name, prof)] else [] }
               profiles := all } req 2
      = some (.ok [(name, r)]) := by
  simp [Schedule, scheduleLoop, runPickedProfiles, hrun, resultsSet]

/-- A scheduler registering only "default" whose profile picker picks the
unregistered name "ghost" (with profile `wProf`) on its first call. -/
def cexGhostSched : Scheduler :=
  { datastore := fun _ => ["p1"]
    profilePicker := { name := "ghostpick"
                       pick := fun _ _ acc => if acc.isEmpty then [("ghost", wProf)] else [] }
    profiles := [("default", failProf)] }

/-- C5 counterexample: the picker returns the name "ghost", which is not
among the registered profile names, yet `Schedule` runs the associated
cycle and stores its result under "ghost" — the entry is not ignored. -/
theorem Schedule_stores_unregistered_name :
    Schedule cexGhostSched { str := "r" } 2
      = some (.ok [("ghost", some { targetPod := "p1" })])
    ∧ ("ghost" : String) ∉ cexGhostSched.profiles.map Prod.fst := by
  constructor
  · simp [Schedule, scheduleLoop, runPickedProfiles, cexGhostSched, RunCycle,
      runFilterPlugins, applyFilters, wProf, runScorerPlugins, wScorer,
      mapAdd, mapSet, mapGet, runPickerPlugin, toScoredPods, lastPicker, resultsSet]
  · simp [cexGhostSched]

/-- Witness for C5 at concrete inputs. -/
theorem Schedule_runs_unregistered_profile_entry_witness :
    Schedule { datastore := fun _ => (["p1"] : List Pod)
               profilePicker := { name := "ghostpick"
                                  pick := fun _ _ acc =>
                                    if acc.isEmpty then [("ghost", wProf)] else [] }
               profiles := [("default", failProf)] } { str := "r" } 2
      = some (.ok [("ghost", some { targetPod := "p1" })]) :=
  Schedule_runs_unregistered_profile_entry "ghost" wProf [("default", failProf)]
    (fun _ => ["p1"]) { str := "r" } (some { targetPod := "p1" })
    (by simp)
    (by simp [RunCycle, runFilterPlugins, applyFilters, wProf, runScorerPlugins,
      wScorer, mapAdd, mapSet, mapGet, runPickerPlugin, toScoredPods, lastPicker])

/-! ### Claim C8 -/

/-- The profile loop never touches the datastore: `scheduleLoop` is
identical for schedulers agreeing on profile picker and profiles. -/
theorem scheduleLoop_congr (s1 s2 : Scheduler)
    (hpk : s1.profilePicker = s2.profilePicker) (hpr : s1.profiles = s2.profiles) :
    ∀ (fuel : Nat) (ctx : SchedulingContext) (acc : Results),
      scheduleLoop s1 ctx fuel acc = scheduleLoop s2 ctx fuel acc := by
  intro fuel
  induction fuel with
  | zero => intro ctx acc; rfl
  | succ n ih =>
    intro ctx acc
    simp only [scheduleLoop, hpk, hpr]
    by_cases hb : (s2.profilePicker.pick ctx.req s2.profiles acc).isEmpty
    · rw [if_pos hb, if_pos hb]
    · rw [if_neg hb, if_neg hb]
      cases runPickedProfiles ctx (s2.profilePicker.pick ctx.req s2.profiles acc) acc with
      | error e => rfl
      | ok acc2 => exact ih ctx acc2

/-- C8: `Schedule` reads the datastore exactly once, at entry; its result
depends only on that first read (index 0 of the read stream) and the
request.  Two schedulers differing arbitrarily in what the datastore would
return after entry — i.e. mutated mid-flight — produce identical results as
long as the entry read agrees. -/
theorem Schedule_snapshot_isolation
    (d1 d2 : Nat → List Pod) (pk : ProfilePicker)
    (profs : List (String × SchedulerProfile)) (req : LLMRequest) (fuel : Nat)
    (h : d1 0 = d2 0) :
    Schedule { datastore := d1, profilePicker := pk, profiles := profs } req fuel
      = Schedule { datastore := d2, profilePicker := pk, profiles := profs } req fuel := by
  simp only [Schedule]
  rw [h, scheduleLoop_congr
    { datastore := d1, profilePicker := pk, profiles := profs }
    { datastore := d2, profilePicker := pk, profiles := profs } rfl rfl]

/-- Witness for C8 at concrete inputs: a constant datastore versus one that
is emptied after the entry read. -/
theorem Schedule_snapshot_isolation_witness :
    Schedule { datastore := fun _ => (["p1"] : List Pod), profilePicker := alwaysAllPicker
               profiles := [("default", failProf)] } { str := "r" } 2
      = Schedule { datastore := fun t => if t = 0 then (["p1"] : List Pod) else []
                   profilePicker := alwaysAllPicker
                   profiles := [("default", failProf)] } { str := "r" } 2 :=
  Schedule_snapshot_isolation (fun _ => ["p1"]) (fun t => if t = 0 then ["p1"] else [])
    alwaysAllPicker [("default", failProf)] { str := "r" } 2 rfl

/-! ### Claim C9 -/

/-- C9: when the profile picker returns the same profile name in a later
iteration of `Schedule`'s loop, the cycle runs again and its result
silently overwrites the earlier one stored under that name
(`profileExecutionResults[name] = result`): with a staged picker that picks
`(n, prof1)` first and then — seeing `prof1`'s result under `n` — picks
`(n, prof2)`, the returned map holds exactly one entry for `n`, namely the
most recent run's result `r2`. -/
theorem Schedule_rerun_overwrites
    (n : String) (prof1 prof2 : SchedulerProfile) (snapshot : List Pod)
    (req : LLMRequest) (r1 r2 : Option Result)
    (all : List (String × SchedulerProfile))
    (h1 : RunCycle prof1 { req := req, podsSnapshot := snapshot } = .ok r1)
    (h2 : RunCycle prof2 { req := req, podsSnapshot := snapshot } = .ok r2)
    (hne : r1 ≠ r2) :
    Schedule { datastore := fun _ => snapshot
               profilePicker := { name := "staged"
                                  pick := fun _ _ acc =>
                                    if acc.isEmpty then [(n, prof1)]
                                    else if resultsLookup acc n = some r1
                                    then [(n, prof2)] else [] }
               profiles := all } req 3
      = some (.ok [(n, r2)]) := by
  simp [Schedule, scheduleLoop, runPickedProfiles, h1, h2, resultsSet, resultsLookup,
    hne, hne.symm]

/-- A picker that always returns pod "a". -/
def constPickerA : Picker := { name := "ca", pick := fun _ _ => some { targetPod := "a" } }

/-- A picker that always returns pod "b". -/
def constPickerB : Picker := { name := "cb", pick := fun _ _ => some { targetPod := "b" } }

/-- Profile whose picker always returns pod "a". -/
def profA : SchedulerProfile :=
  { filters := [], scorers := [], picker := some constPickerA
    postCyclePlugins := [], postResponsePlugins := [] }

/-- Profile whose picker always returns pod "b". -/
def profB : SchedulerProfile :=
  { filters := [], scorers := [], picker := some constPickerB
    postCyclePlugins := [], postResponsePlugins := [] }

/-- Witness for C9 at concrete inputs: the name "dup" is picked in two
iterations, first with `profA` then with `profB`; the final map holds the
single entry ("dup", pod "b"). -/
theorem Schedule_rerun_overwrites_witness :
    Schedule { datastore := fun _ => (["p1"] : List Pod)
               profilePicker := { name := "staged"
                                  pick := fun _ _ acc =>
                                    if acc.isEmpty then [("dup", profA)]
                                    else if resultsLookup acc "dup"
                                        = some (some { targetPod := "a" })
                                    then [("dup", profB)] else [] }
               profiles := [("default", failProf)] } { str := "r" } 3
      = some (.ok [("dup", some { targetPod := "b" })]) :=
  Schedule_rerun_overwrites "dup" profA profB ["p1"] { str := "r" }
    (some { targetPod := "a" }) (some { targetPod := "b" }) [("default", failProf)]
    (by simp [RunCycle, runFilterPlugins, applyFilters, profA, runScorerPlugins,
      runPickerPlugin, toScoredPods, constPickerA])
    (by simp [RunCycle, runFilterPlugins, applyFilters, profB, runScorerPlugins,
      runPickerPlugin, toScoredPods, constPickerB])
    (by decide)

/-! ### Claims C7 and C10 (AddPlugins) -/

theorem finishRoles_fields (p : SchedulerProfile) (pl : PluginImpl) :
    (finishRoles p pl).filters = p.filters
    ∧ (finishRoles p pl).scorers = p.scorers
    ∧ (finishRoles p pl).picker = p.picker
    ∧ (finishRoles p pl).postCyclePlugins
        = p.postCyclePlugins ++ (if pl.postCycleImpl then [pl.name] else [])
    ∧ (finishRoles p pl).postResponsePlugins
        = p.postResponsePlugins ++ (if pl.postResponseImpl then [pl.name] else []) := by
  cases hpc : pl.postCycleImpl <;> cases hpr : pl.postResponseImpl <;>
    simp [finishRoles, hpc, hpr]

theorem registerRoles_err_iff (p : SchedulerProfile) (pl : PluginImpl) :
    (registerRoles p pl).2 ≠ none ↔ pl.pickerImpl.isSome ∧ p.picker.isSome := by
  cases hpi : pl.pickerImpl with
  | none => cases hf : pl.filterImpl <;> simp [registerRoles, hpi, hf]
  | some pkf =>
    cases hp : p.picker with
    | none => cases hf : pl.filterImpl <;> simp [registerRoles, hpi, hf, hp]
    | some ex => cases hf : pl.filterImpl <;> simp [registerRoles, hpi, hf, hp]

theorem registerRoles_fields (p : SchedulerProfile) (pl : PluginImpl)
    (hok : ¬(pl.pickerImpl.isSome ∧ p.picker.isSome)) :
    (registerRoles p pl).2 = none
    ∧ (registerRoles p pl).1.scorers = p.scorers
    ∧ (registerRoles p pl).1.filters
        = p.filters ++ (match pl.filterImpl with
            | some f => [{ name := pl.name, filter := f }]
            | none => [])
    ∧ (registerRoles p pl).1.picker
        = (match pl.pickerImpl with
            | some pkf => some { name := pl.name, pick := pkf }
            | none => p.picker)
    ∧ (registerRoles p pl).1.postCyclePlugins
        = p.postCyclePlugins ++ (if pl.postCycleImpl then [pl.name] else [])
    ∧ (registerRoles p pl).1.postResponsePlugins
        = p.postResponsePlugins ++ (if pl.postResponseImpl then [pl.name] else []) := by
  cases hpi : pl.pickerImpl with
  | none =>
    cases hf : pl.filterImpl <;> cases hpc : pl.postCycleImpl <;>
      cases hpr : pl.postResponseImpl <;>
        simp [registerRoles, finishRoles, hpi, hf, hpc, hpr]
  | some pkf =>
    cases hp : p.picker with
    | some ex => exact absurd (by simp [hpi, hp]) hok
    | none =>
      cases hf : pl.filterImpl <;> cases hpc : pl.postCycleImpl <;>
        cases hpr : pl.postResponseImpl <;>
          simp [registerRoles, finishRoles, hpi, hp, hf, hpc, hpr]

theorem AddPlugins_single_pluginOf (p : SchedulerProfile) (pl : PluginImpl) :
    AddPlugins p [.pluginOf pl]
      = if pl.scorerImpl.isSome
        then (p, some ("failed to register scorer " ++ pl.name
          ++ " without a weight. follow function documentation to register a scorer"))
        else registerRoles p pl := by
  cases hs : pl.scorerImpl with
  | some sf => simp [AddPlugins, hs]
  | none =>
    rcases hr : registerRoles p pl with ⟨p2, e2⟩
    cases e2 <;> simp [AddPlugins, hs, hr]

theorem AddPlugins_single_weighted (p : SchedulerProfile) (w : Int) (pl : PluginImpl) :
    AddPlugins p [.weightedScorer w pl]
      = registerRoles { p with scorers := p.scorers ++ [wrapValue w pl] } pl := by
  rcases hr : registerRoles { p with scorers := p.scorers ++ [wrapValue w pl] } pl
    with ⟨p2, e2⟩
  cases e2 <;> simp [AddPlugins, hr]

/-- C7: profile construction errors arise exactly from (a) passing a bare
`Scorer`-implementing plugin to `AddPlugins` (scorer without a weight),
(b) registering a plugin with a Picker role when a picker is already set,
and (c — modelled from the spec, see `validateProfileHasPicker`) building a
profile with no picker; in all other cases `AddPlugins` succeeds and
registers the plugin under every role interface it implements, unwrapping a
`WeightedScorer` for the non-scorer roles. -/
theorem AddPlugins_error_exactly_and_registers_all_roles
    (p : SchedulerProfile) (pl : PluginImpl) (w : Int) :
    ((AddPlugins p [.pluginOf pl]).2 ≠ none
       ↔ pl.scorerImpl.isSome ∨ (pl.pickerImpl.isSome ∧ p.picker.isSome))
    ∧ ((AddPlugins p [.weightedScorer w pl]).2 ≠ none
       ↔ pl.pickerImpl.isSome ∧ p.picker.isSome)
    ∧ (validateProfileHasPicker p ≠ none ↔ p.picker = none)
    ∧ (pl.scorerImpl = none → ¬(pl.pickerImpl.isSome ∧ p.picker.isSome) →
       ((AddPlugins p [.pluginOf pl]).2 = none
        ∧ (AddPlugins p [.pluginOf pl]).1.scorers = p.scorers
        ∧ (AddPlugins p [.pluginOf pl]).1.filters
            = p.filters ++ (match pl.filterImpl with
                | some f => [{ name := pl.name, filter := f }]
                | none => [])
        ∧ (AddPlugins p [.pluginOf pl]).1.picker
            = (match pl.pickerImpl with
                | some pkf => some { name := pl.name, pick := pkf }
                | none => p.picker)
        ∧ (AddPlugins p [.pluginOf pl]).1.postCyclePlugins
            = p.postCyclePlugins ++ (if pl.postCycleImpl then [pl.name] else [])
        ∧ (AddPlugins p [.pluginOf pl]).1.postResponsePlugins
            = p.postResponsePlugins ++ (if pl.postResponseImpl then [pl.name] else [])))
    ∧ (¬(pl.pickerImpl.isSome ∧ p.picker.isSome) →
       ((AddPlugins p [.weightedScorer w pl]).2 = none
        ∧ (AddPlugins p [.weightedScorer w pl]).1.scorers
            = p.scorers ++ [wrapValue w pl]
        ∧ (AddPlugins p [.weightedScorer w pl]).1.filters
            = p.filters ++ (match pl.filterImpl with
                | some f => [{ name := pl.name, filter := f }]
                | none => [])
        ∧ (AddPlugins p [.weightedScorer w pl]).1.picker
            = (match pl.pickerImpl with
                | some pkf => some { name := pl.name, pick := pkf }
                | none => p.picker)
        ∧ (AddPlugins p [.weightedScorer w pl]).1.postCyclePlugins
            = p.postCyclePlugins ++ (if pl.postCycleImpl then [pl.name] else [])
        ∧ (AddPlugins p [.weightedScorer w pl]).1.postResponsePlugins
            = p.postResponsePlugins
              ++ (if pl.postResponseImpl then [pl.name] else []))) := by
  refine ⟨?_, ?_, ?_, ?_, ?_⟩
  · rw [AddPlugins_single_pluginOf]
    cases hs : pl.scorerImpl with
    | some sf => simp [hs]
    | none => simp [hs, registerRoles_err_iff p pl]
  · rw [AddPlugins_single_weighted]
    rw [registerRoles_err_iff]
  · cases hp : p.picker <;> simp [validateProfileHasPicker, hp]
  · intro hs hok
    rw [AddPlugins_single_pluginOf]
    simp only [hs, Option.isSome_none, Bool.false_eq_true, if_false]
    obtain ⟨h1, h2, h3, h4, h5, h6⟩ := registerRoles_fields p pl hok
    exact ⟨h1, h2, h3, h4, h5, h6⟩
  · intro hok
    rw [AddPlugins_single_weighted]
    have hok2 : ¬(pl.pickerImpl.isSome
        ∧ ({ p with scorers := p.scorers ++ [wrapValue w pl] } : SchedulerProfile).picker.isSome) := by
      simpa using hok
    obtain ⟨h1, h2, h3, h4, h5, h6⟩ :=
      registerRoles_fields { p with scorers := p.scorers ++ [wrapValue w pl] } pl hok2
    exact ⟨h1, by simpa using h2, by simpa using h3, by simpa using h4,
      by simpa using h5, by simpa using h6⟩

/-- A plugin implementing only the Scorer role. -/
def scorerOnlyPlugin : PluginImpl :=
  { name := "sc", scorerImpl := some (fun _ _ => [("p1", 1)])
    filterImpl := none, pickerImpl := none
    postCycleImpl := false, postResponseImpl := false }

/-- A plugin implementing the Scorer, Filter and PostCycle roles. -/
def multiRolePlugin : PluginImpl :=
  { name := "multi", scorerImpl := some (fun _ _ => [("p1", 1)])
    filterImpl := some (fun _ pods => pods), pickerImpl := none
    postCycleImpl := true, postResponseImpl := false }

/-- A plugin implementing the Scorer and Picker roles. -/
def scorerPickerPlugin : PluginImpl :=
  { name := "scpick", scorerImpl := some (fun _ _ => [("p1", 1)])
    filterImpl := none, pickerImpl := some (fun _ sps => sps.head?.map (fun sp => { targetPod := sp.pod }))
    postCycleImpl := false, postResponseImpl := false }

/-- Witness for C7 at concrete inputs: a bare scorer errs; a weighted
multi-role scorer registers in the scorer, filter and post-cycle roles; a
pickerless profile fails validation. -/
theorem AddPlugins_error_exactly_witness :
    ((AddPlugins NewSchedulerProfile [.pluginOf scorerOnlyPlugin]).2 ≠ none
       ↔ scorerOnlyPlugin.scorerImpl.isSome
         ∨ (scorerOnlyPlugin.pickerImpl.isSome ∧ NewSchedulerProfile.picker.isSome))
    ∧ ((AddPlugins NewSchedulerProfile [.weightedScorer 3 multiRolePlugin]).2 = none
        ∧ (AddPlugins NewSchedulerProfile [.weightedScorer 3 multiRolePlugin]).1.scorers
            = NewSchedulerProfile.scorers ++ [wrapValue 3 multiRolePlugin]
        ∧ (AddPlugins NewSchedulerProfile [.weightedScorer 3 multiRolePlugin]).1.filters
            = NewSchedulerProfile.filters ++ (match multiRolePlugin.filterImpl with
                | some f => [{ name := multiRolePlugin.name, filter := f }]
                | none => [])
        ∧ (AddPlugins NewSchedulerProfile [.weightedScorer 3 multiRolePlugin]).1.picker
            = (match multiRolePlugin.pickerImpl with
                | some pkf => some { name := multiRolePlugin.name, pick := pkf }
                | none => NewSchedulerProfile.picker)
        ∧ (AddPlugins NewSchedulerProfile
              [.weightedScorer 3 multiRolePlugin]).1.postCyclePlugins
            = NewSchedulerProfile.postCyclePlugins
              ++ (if multiRolePlugin.postCycleImpl then [multiRolePlugin.name] else [])
        ∧ (AddPlugins NewSchedulerProfile
              [.weightedScorer 3 multiRolePlugin]).1.postResponsePlugins
            = NewSchedulerProfile.postResponsePlugins
              ++ (if multiRolePlugin.postResponseImpl then [multiRolePlugin.name] else []))
    ∧ (validateProfileHasPicker NewSchedulerProfile ≠ none
       ↔ NewSchedulerProfile.picker = none) :=
  ⟨(AddPlugins_error_exactly_and_registers_all_roles NewSchedulerProfile
      scorerOnlyPlugin 3).1,
   (AddPlugins_error_exactly_and_registers_all_roles NewSchedulerProfile
      multiRolePlugin 3).2.2.2.2 (by simp [multiRolePlugin, NewSchedulerProfile]),
   (AddPlugins_error_exactly_and_registers_all_roles NewSchedulerProfile
      scorerOnlyPlugin 3).2.2.1⟩

/-- C10: `AddPlugins` is not atomic on error.  First conjunct: after a
successful prefix, processing continues from the updated profile, so when a
later plugin fails every registration made for the earlier plugins is kept
in the returned profile.  Second conjunct: a `WeightedScorer` whose inner
plugin then fails the duplicate-picker check stays appended to the scorer
list of the returned (error) state — the profile is not restored. -/
theorem AddPlugins_not_atomic_on_error :
    (∀ (p : SchedulerProfile) (objs1 objs2 : List PluginObj),
        (AddPlugins p objs1).2 = none →
        AddPlugins p (objs1 ++ objs2) = AddPlugins (AddPlugins p objs1).1 objs2)
    ∧ (∀ (p : SchedulerProfile) (w : Int) (pl : PluginImpl),
        pl.pickerImpl.isSome → p.picker.isSome →
        (AddPlugins p [.weightedScorer w pl]).2 ≠ none
        ∧ (AddPlugins p [.weightedScorer w pl]).1.scorers
            = p.scorers ++ [wrapValue w pl]) := by
  constructor
  · intro p objs1
    induction objs1 generalizing p with
    | nil => intro objs2 h; rfl
    | cons obj rest ih =>
      intro objs2 h
      cases obj with
      | weightedScorer w pl =>
        rcases hr : registerRoles { p with scorers := p.scorers ++ [wrapValue w pl] } pl
          with ⟨p2, e2⟩
        cases e2 with
        | none =>
          have hstep : AddPlugins p (.weightedScorer w pl :: rest) = AddPlugins p2 rest := by
            simp [AddPlugins, hr]
          have hstep2 : AddPlugins p (.weightedScorer w pl :: (rest ++ objs2))
              = AddPlugins p2 (rest ++ objs2) := by
            simp [AddPlugins, hr]
          rw [hstep] at h
          rw [List.cons_append, hstep2, hstep]
          exact ih p2 objs2 h
        | some e =>
          have hstep : AddPlugins p (.weightedScorer w pl :: rest) = (p2, some e) := by
            simp [AddPlugins, hr]
          rw [hstep] at h
          simp at h
      | pluginOf pl =>
        by_cases hs : pl.scorerImpl.isSome
        · have hstep : AddPlugins p (.pluginOf pl :: rest)
              = (p, some ("failed to register scorer " ++ pl.name
                ++ " without a weight. follow function documentation to register a scorer")) := by
            simp [AddPlugins, hs]
          rw [hstep] at h
          simp at h
        · rcases hr : registerRoles p pl with ⟨p2, e2⟩
          cases e2 with
          | none =>
            have hstep : AddPlugins p (.pluginOf pl :: rest) = AddPlugins p2 rest := by
              simp [AddPlugins, hs, hr]
            have hstep2 : AddPlugins p (.pluginOf pl :: (rest ++ objs2))
                = AddPlugins p2 (rest ++ objs2) := by
              simp [AddPlugins, hs, hr]
            rw [hstep] at h
            rw [List.cons_append, hstep2, hstep]
            exact ih p2 objs2 h
          | some e =>
            have hstep : AddPlugins p (.pluginOf pl :: rest) = (p2, some e) := by
              simp [AddPlugins, hs, hr]
            rw [hstep] at h
            simp at h
  · intro p w pl hpi hp
    rw [AddPlugins_single_weighted]
    obtain ⟨pkf, hpkf⟩ := Option.isSome_iff_exists.mp hpi
    obtain ⟨ex, hex⟩ := Option.isSome_iff_exists.mp hp
    cases hf : pl.filterImpl <;>
      simp [registerRoles, hpkf, hex, hf]

/-- Witness for C10 at concrete inputs: adding a weighted multi-role scorer
(succeeds) and then a weighted scorer-picker plugin to a profile that
already has a picker: the second plugin fails the duplicate-picker check,
yet both WeightedScorer entries — including the failing one — and the first
plugin's filter registration remain in the returned profile. -/
theorem AddPlugins_not_atomic_on_error_witness :
    AddPlugins { filters := [], scorers := [], picker := some lastPicker
                 postCyclePlugins := [], postResponsePlugins := [] }
        ([.weightedScorer 3 multiRolePlugin] ++ [.weightedScorer 4 scorerPickerPlugin])
      = AddPlugins (AddPlugins { filters := [], scorers := [], picker := some lastPicker
                                 postCyclePlugins := [], postResponsePlugins := [] }
                      [.weightedScorer 3 multiRolePlugin]).1
          [.weightedScorer 4 scorerPickerPlugin]
    ∧ ((AddPlugins { filters := [], scorers := [], picker := some lastPicker
                     postCyclePlugins := [], postResponsePlugins := [] }
          [.weightedScorer 4 scorerPickerPlugin]).2 ≠ none
       ∧ (AddPlugins { filters := [], scorers := [], picker := some lastPicker
                       postCyclePlugins := [], postResponsePlugins := [] }
            [.weightedScorer 4 scorerPickerPlugin]).1.scorers
           = [] ++ [wrapValue 4 scorerPickerPlugin]) :=
  ⟨AddPlugins_not_atomic_on_error.1
      { filters := [], scorers := [], picker := some lastPicker
        postCyclePlugins := [], postResponsePlugins := [] }
      [.weightedScorer 3 multiRolePlugin] [.weightedScorer 4 scorerPickerPlugin]
      (by simp [AddPlugins, registerRoles, finishRoles, multiRolePlugin, wrapValue]),
   AddPlugins_not_atomic_on_error.2
      { filters := [], scorers := [], picker := some lastPicker
        postCyclePlugins := [], postResponsePlugins := [] }
      4 scorerPickerPlugin rfl rfl⟩

end GatewaySched
